import Mathlib

/-!
# Verification of the `tinytask` task-graph evaluation library

Shallow embedding of the repository's core modules:

* `src/tinytask/ops.py`   — the tagged operation graph (`Ops`, `NOp`), the
  per-tag evaluation rules (`void`, `const`, `call`, `compose`), memoizing
  `NOp.eval`, and the bottom-up `recursive_eval`.
* `src/tinytask/task.py`  — `Task`, `Signature`, `make_tracer` and the
  callback-notification wrapper.
* `src/tinytask/callbacks.py` — `check_is_callback` and the callback setter.
* `src/tinytask/fileloaders.py` — the `substitute` placeholder expander.

Python dynamic values are modelled by a closed universe `Val`; Python
callables by a syntactic function type `Fn` with an application function
`applyFn`; a raised exception by `Except Unit`; Python `None` by
`Option.none`.  Mutation of `NOp.result` is modelled by explicit state
passing (`NOp.eval` returns the computed value together with the updated
node).
-/

namespace TinyTask

/-- The closed operation tag set, from `ops.py` (`class Ops(Enum)`). -/
inductive Ops where
  | VOID
  | CONST
  | CALL
  | COMPOSE
deriving DecidableEq, Repr

mutual

/-- Universe of Python payload values used by the operation graph:
`vnone` is Python `None`, `vunit` the empty tuple `()` (the `arg` default),
`vint` an integer, `vfn` a callable. -/
inductive Val where
  | vnone
  | vunit
  | vint (n : Int)
  | vfn (f : Fn)
deriving DecidableEq, Repr

/-- Syntactic universe of the Python callables that appear as payloads:
`add` is `lambda x, y: x + y`, `mul` is `lambda x, y: x * y`,
`mulK k` is `lambda x: k * x`, `curryMul` is `lambda k: lambda x: k * x`
(a callable returning a callable), `constF v` is `lambda x: v`. -/
inductive Fn where
  | add
  | mul
  | mulK (k : Int)
  | curryMul
  | constF (v : Val)
deriving DecidableEq, Repr

end

mutual

/-- The graph node of `ops.py` (`@dataclass class NOp`): operation tag `op`,
payload `arg` (default `()`), optional input list `src` (default `None`),
and the mutable memo cell `result` (default `None`).  The evaluation rules
only ever store `None` or an `NOp` in `result`, so the cell is modelled as
`Option NOp`. -/
inductive NOp where
  | mk (op : Ops) (arg : Val) (src : Option NOpList) (result : Option NOp)

/-- A Python `list` whose entries are nodes or `None` (after recursion,
`recursive_eval` can place `None` into a source list, since the `VOID`
rule returns `None`). -/
inductive NOpList where
  | nil
  | cons (hd : Option NOp) (tl : NOpList)

end

/-- `NOp.op` field accessor. -/
def NOp.op : NOp → Ops
  | .mk o _ _ _ => o

/-- `NOp.arg` field accessor. -/
def NOp.arg : NOp → Val
  | .mk _ a _ _ => a

/-- `NOp.src` field accessor. -/
def NOp.src : NOp → Option NOpList
  | .mk _ _ s _ => s

/-- `NOp.result` field accessor (the memo cell). -/
def NOp.result : NOp → Option NOp
  | .mk _ _ _ r => r

/-- `NOp.is_leaf`: `self.src is None or not self.src`. -/
def NOp.is_leaf : NOp → Bool
  | .mk _ _ none _ => true
  | .mk _ _ (some .nil) _ => true
  | .mk _ _ (some (.cons _ _)) _ => false

/-- Application of an embedded callable to a positional-argument list.
`none` models a raised `TypeError` (arity mismatch or non-numeric
operand). -/
def applyFn : Fn → List Val → Option Val
  | .add, [.vint a, .vint b] => some (.vint (a + b))
  | .mul, [.vint a, .vint b] => some (.vint (a * b))
  | .mulK k, [.vint x] => some (.vint (k * x))
  | .curryMul, [.vint k] => some (.vfn (.mulK k))
  | .constF v, [_] => some v
  | _, _ => none

/-- Calling a payload value: only a `vfn` is invocable; calling anything
else raises (`none`), as Python raises `TypeError` on a non-callable. -/
def applyVal : Val → List Val → Option Val
  | .vfn f, args => applyFn f args
  | _, _ => none

/-- `(s.arg for s in src)` forced into a tuple: extracting `arg` of each
entry; a `None` entry raises `AttributeError` (`none`). -/
def NOpList.args : NOpList → Option (List Val)
  | .nil => some []
  | .cons none _ => none
  | .cons (some s) tl =>
    match tl.args with
    | some rest => some (s.arg :: rest)
    | none => none

/-- `src[-1]`: the last entry; `none` models the `IndexError` on an empty
list. -/
def NOpList.last? : NOpList → Option (Option NOp)
  | .nil => none
  | .cons h .nil => some h
  | .cons _ (.cons h tl) => (NOpList.cons h tl).last?

/-- `ops.py` line 17: `def void(arg, src): return None`.
The rule itself never raises; its value is Python `None`. -/
def void (_arg : Val) (_src : Option NOpList) : Except Unit (Option NOp) :=
  .ok none

/-- `ops.py` line 18: `def const(arg, src): return NOp(Ops.VOID)` —
a fresh `VOID` node with all-default fields. -/
def const (_arg : Val) (_src : Option NOpList) : Except Unit (Option NOp) :=
  .ok (some (NOp.mk .VOID .vunit none none))

/-- `ops.py` line 19:
`def call(arg, src, op=Ops.VOID): return NOp(op, arg(*(s.arg for s in src)))`.
The `op` parameter is never overridden by any caller, so the produced node
is always `VOID`-tagged.  Iterating a `None` source list, an entry that is
`None`, a non-callable payload, or an arity mismatch raise (`.error`). -/
def call (arg : Val) (src : Option NOpList) : Except Unit (Option NOp) :=
  match src with
  | none => .error ()
  | some l =>
    match l.args with
    | none => .error ()
    | some args =>
      match applyVal arg args with
      | none => .error ()
      | some r => .ok (some (NOp.mk .VOID r none none))

/-- The fold of `ops.py` line 23:
`reduce(lambda x, fxn: fxn(x), (s.arg for s in src), initial_value)` —
each source's `arg` is applied to the running accumulator as a single
positional argument, left to right. -/
def foldApply (acc : Val) : NOpList → Option Val
  | .nil => some acc
  | .cons none _ => none
  | .cons (some s) tl =>
    match applyVal s.arg [acc] with
    | none => none
    | some acc2 => foldApply acc2 tl

/-- `ops.py` lines 21-24: `compose` folds the sources over the initial
payload and returns `NOp(src[-1].op, retval)` — a node tagged with the
LAST source's operation (not `CONST`), carrying the final accumulator. -/
def compose (arg : Val) (src : Option NOpList) : Except Unit (Option NOp) :=
  match src with
  | none => .error ()
  | some l =>
    match foldApply arg l with
    | none => .error ()
    | some retval =>
      match l.last? with
      | none => .error ()
      | some none => .error ()
      | some (some lastN) => .ok (some (NOp.mk lastN.op retval none none))

/-- The dispatch table `_OP_TO_FXN` of `ops.py` lines 27-32. -/
def opToFxn : Ops → Val → Option NOpList → Except Unit (Option NOp)
  | .VOID => void
  | .CONST => const
  | .CALL => call
  | .COMPOSE => compose

/-- `NOp.eval` (`ops.py` lines 101-105):

    if self.result is None:
        self.result = _OP_TO_FXN[self.op](self.arg, self.src)
    return self.result

State-passing model of the mutation: returns the value (`self.result`
after the call, an `Option NOp` since rules return a node or `None`)
together with the updated node. -/
def NOp.eval : NOp → Except Unit (Option NOp × NOp)
  | .mk op arg src result =>
    match result with
    | some r => .ok (some r, .mk op arg src (some r))
    | none =>
      match opToFxn op arg src with
      | .error e => .error e
      | .ok r => .ok (r, .mk op arg src r)

mutual

/-- `recursive_eval` (`ops.py` lines 66-73): a leaf is returned unchanged;
otherwise every source is recursively evaluated left to right, a fresh node
with the original tag and payload and the evaluated sources is built, and
that node's `eval` value is returned (an `Option NOp`, since a `VOID`
node evaluates to Python `None`). -/
def recursive_eval : NOp → Except Unit (Option NOp)
  | .mk op arg none result => .ok (some (.mk op arg none result))
  | .mk op arg (some .nil) result => .ok (some (.mk op arg (some .nil) result))
  | .mk op arg (some (.cons h t)) _result =>
    match recursive_eval_list (.cons h t) with
    | .error e => .error e
    | .ok newSrc =>
      match NOp.eval (.mk op arg (some newSrc) none) with
      | .error e => .error e
      | .ok (v, _) => .ok v

/-- The list comprehension `[recursive_eval(src) for src in n.src]`:
entries are evaluated left to right; an entry that is `None` raises
(`recursive_eval(None)` would fail on `None.is_leaf()`). -/
def recursive_eval_list : NOpList → Except Unit NOpList
  | .nil => .ok .nil
  | .cons none _ => .error ()
  | .cons (some s) tl =>
    match recursive_eval s with
    | .error e => .error e
    | .ok v =>
      match recursive_eval_list tl with
      | .error e => .error e
      | .ok tl2 => .ok (.cons v tl2)

end

/-! ## `src/tinytask/task.py` and `src/tinytask/callbacks.py`

The task layer is modelled over abstract value and error types `V`, `E`:
a task body is a function `List V → Except E V` (positional arguments;
a raised exception is `.error`).  Callback side effects are modelled as an
explicit event trace: every `notify` of the Python code appends, for each
attached callback in order, one event recording the method invoked and its
arguments. -/

/-- A Python object considered for attachment as a callback: `is_cb` is
`isinstance(o, Callback)` — the `Callback` ABC requires `on_begin`,
`on_success` and `on_failure`, so an instance exists exactly when the
object implements all three. -/
structure PyObj where
  id : Nat
  is_cb : Bool
deriving DecidableEq, Repr

/-- `callbacks.py` lines 6-8: `check_is_callback` raises `TypeError` unless
`isinstance(o, Callback)`. -/
def check_is_callback (o : PyObj) : Except Unit Unit :=
  if o.is_cb then .ok () else .error ()

/-- The `for cb in value: check_is_callback(cb)` loop of the `callbacks`
setter (`task.py` lines 191-195): stops with the `TypeError` of the first
non-conforming element. -/
def checkAllCallbacks : List PyObj → Except Unit Unit
  | [] => .ok ()
  | o :: rest =>
    match check_is_callback o with
    | .error e => .error e
    | .ok _ => checkAllCallbacks rest

/-- One observed callback-method invocation: which callback object, which
method, and the keyword arguments the Python code passes
(`task_id`, and `retval` or `exc` where applicable). -/
inductive TraceEvent (V E : Type) where
  | on_begin (cb : PyObj) (task_id : String)
  | on_success (cb : PyObj) (task_id : String) (retval : V)
  | on_failure (cb : PyObj) (task_id : String) (exc : E)
deriving DecidableEq, Repr

/-- `true` iff the event is an `on_success` invocation. -/
def TraceEvent.isSuccess : TraceEvent V E → Bool
  | .on_success _ _ _ => true
  | _ => false

/-- `true` iff the event is an `on_failure` invocation. -/
def TraceEvent.isFailure : TraceEvent V E → Bool
  | .on_failure _ _ _ => true
  | _ => false

/-- `task.py` `class Task`: name, attached callbacks (`_callbacks`,
empty by default), and the body `run` (supplied by a subclass or wrapped
callable, cf. `task_from_callable`). -/
structure Task (V E : Type) where
  name : String
  callbacks : List PyObj
  run : List V → Except E V

/-- `Task.notify` (`task.py` lines 183-185): invokes the named method on
every attached callback, in attachment order; modelled as the list of
invocation events, one per callback. -/
def Task.notify (t : Task V E) (mkEvent : PyObj → TraceEvent V E) :
    List (TraceEvent V E) :=
  t.callbacks.map mkEvent

/-- The task-level error raised by the tracer:
`RuntimeError(f"Task {task_id} failed.") from exc` — the message together
with the `__cause__` chained original exception. -/
structure TaskError (E : Type) where
  msg : String
  cause : E
deriving Repr

/-- `make_tracer` (`task.py` lines 21-64): notify `on_begin` to every
callback; run the task body (`task(*args, **kwargs)`, i.e. `run`); on an
exception notify `on_failure` with the original exception and raise a
`RuntimeError` chaining it; on success notify `on_success` and return the
value.  The first component is the full event trace, in order. -/
def make_tracer (t : Task V E) (args : List V) :
    List (TraceEvent V E) × Except (TaskError E) V :=
  let task_id := t.name
  let beginEvts := t.notify (fun cb => .on_begin cb task_id)
  match t.run args with
  | .error exc =>
    (beginEvts ++ t.notify (fun cb => .on_failure cb task_id exc),
     .error (TaskError.mk ("Task " ++ task_id ++ " failed.") exc))
  | .ok retval =>
    (beginEvts ++ t.notify (fun cb => .on_success cb task_id retval),
     .ok retval)

/-- `Task.__call__` (`task.py` lines 177-178): `return self.run(*args, **kwargs)`
— runs the body directly; no `notify` occurs on this path, so the event
trace is empty. -/
def Task.call (t : Task V E) (args : List V) :
    List (TraceEvent V E) × Except E V :=
  ([], t.run args)

/-- `Task.trace` (`task.py` lines 159-175): `make_tracer(self)(args, kwargs)`. -/
def Task.trace (t : Task V E) (args : List V) :
    List (TraceEvent V E) × Except (TaskError E) V :=
  make_tracer t args

/-- `Signature` (`task.py` lines 95-145): a task together with bound
positional arguments. -/
structure Signature (V E : Type) where
  task : Task V E
  args : List V

/-- `Task.s` (`task.py` lines 180-181):
`return Signature(task=self, args=args, kwargs=kwargs)`. -/
def Task.s (t : Task V E) (args : List V) : Signature V E :=
  Signature.mk t args

/-- `Signature.__call__` (`task.py` lines 121-122):
`return self.task(*self.args, **self.kwargs)` — invokes `Task.__call__`,
hence `run` directly, not the traced entry point. -/
def Signature.call (s : Signature V E) : List (TraceEvent V E) × Except E V :=
  s.task.call s.args

/-- `Signature.trace` (`task.py` lines 124-125):
`return self.task.trace(args=self.args, kwargs=self.kwargs)`. -/
def Signature.trace (s : Signature V E) :
    List (TraceEvent V E) × Except (TaskError E) V :=
  s.task.trace s.args

/-- The `callbacks` property setter (`task.py` lines 191-195): check every
element of the new list, then assign.  Modelled as a state transition:
the returned task carries the new list on success and the UNCHANGED old
list when the loop raised. -/
def Task.set_callbacks (t : Task V E) (value : List PyObj) :
    Task V E × Except Unit Unit :=
  match checkAllCallbacks value with
  | .ok _ => (Task.mk t.name value t.run, .ok ())
  | .error e => (t, .error e)

/-! ## `src/tinytask/fileloaders.py`: `substitute`

Strings are modelled as `List Char`.  The regex `\$\x7b(.*?)\x7d` of
`re.sub` matches, at each position, a literal `$`, a literal opening brace,
a minimal run of non-newline characters, and the first closing brace; the
replacement is `parameters.get(name, match)` — the parameter value when the
name is a key, the whole placeholder text verbatim otherwise.  `re.sub`
scans left to right over non-overlapping matches. -/

/-- The `parameters: dict[str, str]` mapping, as an association list
(keys unique in a Python dict; lookup takes the first binding). -/
abbrev Params := List (List Char × List Char)

/-- `parameters.get(name)`: first binding of the key, if any. -/
def lookupParam : Params → List Char → Option (List Char)
  | [], _ => none
  | (k, v) :: tl, key => if key = k then some v else lookupParam tl key

/-- The minimal-match search of `(.*?)` followed by the closing brace:
returns the captured name and the remainder after the closing brace, or
`none` when no closing brace is reachable without crossing a newline
(`.` does not match a newline, so such an attempt fails and `re.sub`
moves on). -/
def findClose : List Char → Option (List Char × List Char)
  | [] => none
  | c :: cs =>
    if c = '\x7d' then some ([], cs)
    else if c = '\n' then none
    else
      match findClose cs with
      | some (name, rest) => some (c :: name, rest)
      | none => none

/-- One left-to-right `re.sub` pass, fuelled by the input length (every
step consumes at least one character and one fuel unit, so fuel equal to
the length is never exhausted): on `$` followed by an opening brace and a
reachable closing brace, substitute the placeholder and continue after it;
otherwise copy one character and continue. -/
def subCharsF (ps : Params) : Nat → List Char → List Char
  | _, [] => []
  | 0, s => s
  | fuel + 1, '$' :: '\x7b' :: cs =>
    match findClose cs with
    | some (name, rest) =>
      (match lookupParam ps name with
       | some v => v
       | none => '$' :: '\x7b' :: (name ++ ['\x7d'])) ++ subCharsF ps fuel rest
    | none => '$' :: subCharsF ps fuel ('\x7b' :: cs)
  | fuel + 1, c :: cs => c :: subCharsF ps fuel cs

/-- The string branch of `substitute` (`fileloaders.py` lines 13-19):
`re.sub` of the placeholder pattern over the whole string. -/
def subChars (ps : Params) (s : List Char) : List Char :=
  subCharsF ps s.length s

mutual

/-- The structured values `substitute` walks: a string, a mapping, a
sequence, or any other value (`α`, returned unchanged by the final
`else` branch). -/
inductive Value (α : Type) where
  | vstr (s : List Char)
  | vmap (m : ValueMap α)
  | vlist (l : ValueList α)
  | vother (a : α)

/-- A Python `dict` of structured values: ordered key/value entries. -/
inductive ValueMap (α : Type) where
  | nil
  | cons (k : List Char) (v : Value α) (tl : ValueMap α)

/-- A Python `list` of structured values. -/
inductive ValueList (α : Type) where
  | nil
  | cons (v : Value α) (tl : ValueList α)

end

/-- Keys of a mapping, in order. -/
def ValueMap.keys : ValueMap α → List (List Char)
  | .nil => []
  | .cons k _ tl => k :: tl.keys

/-- Values of a mapping, in order. -/
def ValueMap.values : ValueMap α → List (Value α)
  | .nil => []
  | .cons _ v tl => v :: tl.values

/-- Entries of a sequence, in order. -/
def ValueList.toList : ValueList α → List (Value α)
  | .nil => []
  | .cons v tl => v :: tl.toList

mutual

/-- `substitute` (`fileloaders.py` lines 9-27): strings get placeholder
substitution, mappings and sequences are rebuilt with every entry
substituted recursively, anything else is returned unchanged. -/
def substitute (ps : Params) : Value α → Value α
  | .vstr s => .vstr (subChars ps s)
  | .vmap m => .vmap (substituteMap ps m)
  | .vlist l => .vlist (substituteList ps l)
  | .vother a => .vother a

/-- The dict comprehension branch: keys kept, values substituted. -/
def substituteMap (ps : Params) : ValueMap α → ValueMap α
  | .nil => .nil
  | .cons k v tl => .cons k (substitute ps v) (substituteMap ps tl)

/-- The list comprehension branch: entries substituted in order. -/
def substituteList (ps : Params) : ValueList α → ValueList α
  | .nil => .nil
  | .cons v tl => .cons (substitute ps v) (substituteList ps tl)

end

/-! ## Concrete instances used by witnesses and counterexamples -/

/-- `true` iff every entry of the list is a node (not `None`) and a leaf. -/
def NOpList.allLeaves : NOpList → Bool
  | .nil => true
  | .cons none _ => false
  | .cons (some s) tl => s.is_leaf && tl.allLeaves

/-- `NOp(Ops.CONST, arg=2)` from `tests/test_ops.py`. -/
def constTwo : NOp := .mk .CONST (.vint 2) none none

/-- `NOp(Ops.CONST, arg=3)` from `tests/test_ops.py`. -/
def constThree : NOp := .mk .CONST (.vint 3) none none

/-- `NOp(Ops.CALL, lambda x, y: x + y, src=[two, three])`. -/
def callEx : NOp :=
  .mk .CALL (.vfn .add)
    (some (.cons (some constTwo) (.cons (some constThree) .nil))) none

/-- `NOp(Ops.CALL, lambda x: 2 * x)` — the `double` leaf. -/
def doubleLeaf : NOp := .mk .CALL (.vfn (.mulK 2)) none none

/-- `NOp(Ops.CALL, lambda x: 3 * x)` — the `triple` leaf. -/
def tripleLeaf : NOp := .mk .CALL (.vfn (.mulK 3)) none none

/-- `NOp(Ops.COMPOSE, arg=10, src=[double, triple])` from
`tests/test_ops.py::test_compose_1`. -/
def composeEx : NOp :=
  .mk .COMPOSE (.vint 10)
    (some (.cons (some doubleLeaf) (.cons (some tripleLeaf) .nil))) none

/-- The all-default `NOp(Ops.VOID)` node. -/
def voidN : NOp := .mk .VOID .vunit none none

/-- A conforming callback object. -/
def cb0 : PyObj := ⟨0, true⟩

/-- A second conforming callback object. -/
def cb1 : PyObj := ⟨1, true⟩

/-- An object that is not a `Callback` instance. -/
def nonCb : PyObj := ⟨3, false⟩

/-- A task whose body returns `7`, with two attached callbacks. -/
def okTask : Task Int String := ⟨"t1", [cb0, cb1], fun _ => .ok 7⟩

/-- A task whose body raises `"boom"`, with two attached callbacks. -/
def failTask : Task Int String := ⟨"t2", [cb0, cb1], fun _ => .error "boom"⟩

/-- A task with one callback whose body returns `1`, used to watch the
events of a `Signature` invocation. -/
def sigTask : Task Int String := ⟨"t0", [cb0], fun _ => .ok 1⟩

/-- The parameter mapping of the substitution example:
`x` to `"a"` and `y` to `"b"`. -/
def exParams : Params := [("x".toList, "a".toList), ("y".toList, "b".toList)]

/-! ## Helper lemmas -/

/-- A leaf node is returned by `recursive_eval` as-is. -/
theorem recursive_eval_leaf (n : NOp) (h : n.is_leaf = true) :
    recursive_eval n = .ok (some n) := by
  cases n with
  | mk op arg src result =>
    cases src with
    | none => rfl
    | some l =>
      cases l with
      | nil => rfl
      | cons hd tl => simp [NOp.is_leaf] at h

/-- Recursively evaluating a list of leaf nodes returns it unchanged. -/
theorem recursive_eval_list_of_allLeaves :
    ∀ l : NOpList, l.allLeaves = true → recursive_eval_list l = .ok l
  | .nil, _ => rfl
  | .cons none tl, h => by simp [NOpList.allLeaves] at h
  | .cons (some s) tl, h => by
    simp [NOpList.allLeaves] at h
    simp [recursive_eval_list, recursive_eval_leaf s h.1,
          recursive_eval_list_of_allLeaves tl h.2]

/-- The callback-check loop succeeds on a list of conforming objects. -/
theorem checkAllCallbacks_ok :
    ∀ l : List PyObj, (∀ o ∈ l, o.is_cb = true) → checkAllCallbacks l = .ok ()
  | [], _ => rfl
  | o :: rest, h => by
    simp [checkAllCallbacks, check_is_callback, h o (by simp)]
    exact checkAllCallbacks_ok rest (fun x hx => h x (by simp [hx]))

/-- The callback-check loop raises at the first non-conforming element,
whatever follows it. -/
theorem checkAllCallbacks_err :
    ∀ (good : List PyObj) (bad : PyObj) (rest : List PyObj),
      (∀ o ∈ good, o.is_cb = true) → bad.is_cb = false →
      checkAllCallbacks (good ++ bad :: rest) = .error ()
  | [], bad, rest, _, hb => by
    simp [checkAllCallbacks, check_is_callback, hb]
  | g :: good, bad, rest, hg, hb => by
    simp [checkAllCallbacks, check_is_callback, hg g (by simp)]
    exact checkAllCallbacks_err good bad rest (fun x hx => hg x (by simp [hx])) hb

/-- Substitution keeps every key of a mapping, in order. -/
theorem substituteMap_keys {α : Type} (ps : Params) :
    ∀ m : ValueMap α, (substituteMap ps m).keys = m.keys
  | .nil => rfl
  | .cons k v tl => by
    simp [substituteMap, ValueMap.keys, substituteMap_keys ps tl]

/-- Substitution maps `substitute` over the values of a mapping, in order. -/
theorem substituteMap_values {α : Type} (ps : Params) :
    ∀ m : ValueMap α, (substituteMap ps m).values = m.values.map (substitute ps)
  | .nil => rfl
  | .cons k v tl => by
    simp [substituteMap, ValueMap.values, substituteMap_values ps tl]

/-- Substitution maps `substitute` over the entries of a sequence, in
order. -/
theorem substituteList_toList {α : Type} (ps : Params) :
    ∀ l : ValueList α, (substituteList ps l).toList = l.toList.map (substitute ps)
  | .nil => rfl
  | .cons v tl => by
    simp [substituteList, ValueList.toList, substituteList_toList ps tl]

/-! ## Claims -/

/-- Claim C7 (confirmed): for every leaf node `n` (a node whose `src` is
`None` or empty), `recursive_eval n` returns `n` itself unchanged, with no
evaluation performed and no side effect on the node. -/
theorem C7_leaf_identity (n : NOp) (h : n.is_leaf = true) :
    recursive_eval n = .ok (some n) :=
  recursive_eval_leaf n h

/-- Witness for C7 at the leaf `NOp(Ops.CONST, arg=2)`. -/
theorem C7_witness :
    NOp.is_leaf constTwo = true ∧
    recursive_eval constTwo = .ok (some constTwo) :=
  ⟨rfl, C7_leaf_identity constTwo rfl⟩

/-- Counterexample to C1 as stated: at
`CALL(lambda x, y: x + y, [CONST(2), CONST(3)])`, `recursive_eval` returns
a node carrying `5`, but that node is tagged `VOID`, not `CONST` (and not
`CALL` either) — the `op=Ops.VOID` default of `call` is never overridden
and the result's invocability is never inspected. -/
theorem C1_counterexample :
    recursive_eval callEx = .ok (some (NOp.mk .VOID (.vint 5) none none)) ∧
    (NOp.mk .VOID (.vint 5) none none).op ≠ Ops.CONST ∧
    (NOp.mk .VOID (.vint 5) none none).op ≠ Ops.CALL :=
  ⟨rfl, by decide, by decide⟩

/-- Claim C1 (amended): for every CALL node whose payload `f` is invocable
and whose inputs are leaf nodes with constant payloads `a` and `b`,
`recursive_eval` invokes `f` with the payloads of the inputs as positional
arguments in input order and returns a VOID-tagged node carrying
`f(a, b)` — the result tag is always `VOID`, regardless of whether the
return value is itself invocable. -/
theorem C1_call_eval_void_tagged (f : Fn) (a b r : Val)
    (h : applyFn f [a, b] = some r) :
    recursive_eval
      (NOp.mk .CALL (.vfn f)
        (some (.cons (some (NOp.mk .CONST a none none))
          (.cons (some (NOp.mk .CONST b none none)) .nil))) none) =
      .ok (some (NOp.mk .VOID r none none)) := by
  simp [recursive_eval, recursive_eval_list, NOp.eval, opToFxn, call,
        NOpList.args, NOp.arg, applyVal, h]

/-- Witness for C1 with `f = lambda x, y: x + y`, `a = 2`, `b = 3`. -/
theorem C1_witness :
    applyFn .add [.vint 2, .vint 3] = some (.vint 5) ∧
    recursive_eval callEx = .ok (some (NOp.mk .VOID (.vint 5) none none)) :=
  ⟨rfl, C1_call_eval_void_tagged .add (.vint 2) (.vint 3) (.vint 5) rfl⟩

/-- Counterexample to C2 as stated: the COMPOSE node with payload `10` and
inputs `[double, triple]` evaluates to a node with payload `60`, but the
node is tagged `CALL` (the tag of `src[-1]`), not `CONST`. -/
theorem C2_counterexample :
    recursive_eval composeEx = .ok (some (NOp.mk .CALL (.vint 60) none none)) ∧
    (NOp.mk .CALL (.vint 60) none none).op ≠ Ops.CONST :=
  ⟨rfl, by decide⟩

/-- Claim C2 (amended): for every COMPOSE node with leaf inputs, evaluation
folds the inputs left-to-right — the accumulator starts as the node's
payload and each input's payload is applied to the current accumulator in
turn — and the final accumulator becomes the payload of a result node
tagged with the LAST input's operation (not `CONST`); in particular the
COMPOSE node with payload `10` and inputs `[double, triple]` evaluates to
a CALL-tagged node with payload `60`. -/
theorem C2_compose_eval_last_tag (v w : Val) (l : NOpList) (lastN : NOp)
    (hleaf : l.allLeaves = true)
    (hfold : foldApply v l = some w)
    (hlast : l.last? = some (some lastN)) :
    recursive_eval (NOp.mk .COMPOSE v (some l) none) =
      .ok (some (NOp.mk lastN.op w none none)) := by
  cases l with
  | nil => simp [NOpList.last?] at hlast
  | cons hd tl =>
    simp [recursive_eval, recursive_eval_list_of_allLeaves _ hleaf, NOp.eval,
          opToFxn, compose, hfold, hlast]

/-- Witness for C2 at the `test_compose_1` example: payload `10`, inputs
`[double, triple]`, final payload `60`, tag taken from `triple`. -/
theorem C2_witness :
    (NOpList.cons (some doubleLeaf) (.cons (some tripleLeaf) .nil)).allLeaves = true ∧
    foldApply (.vint 10)
      (NOpList.cons (some doubleLeaf) (.cons (some tripleLeaf) .nil)) = some (.vint 60) ∧
    (NOpList.cons (some doubleLeaf) (.cons (some tripleLeaf) .nil)).last? =
      some (some tripleLeaf) ∧
    recursive_eval composeEx = .ok (some (NOp.mk tripleLeaf.op (.vint 60) none none)) :=
  ⟨rfl, rfl, rfl,
   C2_compose_eval_last_tag (.vint 10) (.vint 60) _ tripleLeaf rfl rfl rfl⟩

/-- Counterexample to C6 as stated: evaluating the node `NOp(Ops.VOID)`
yields Python `None` — not a node of any kind, in particular not a
VOID-tagged node. -/
theorem C6_counterexample :
    NOp.eval voidN = .ok (none, voidN) ∧
    (none : Option NOp) ≠ some voidN :=
  ⟨rfl, fun hc => Option.noConfusion hc⟩

/-- Claim C6 (amended): evaluating a VOID node yields the sentinel
`None` (no node at all); it is evaluating a CONST node that yields a fresh
VOID-tagged node carrying no payload. -/
theorem C6_void_eval_is_none (arg : Val) (src : Option NOpList) :
    NOp.eval (NOp.mk .VOID arg src none) = .ok (none, NOp.mk .VOID arg src none) ∧
    NOp.eval (NOp.mk .CONST arg src none) =
      .ok (some (NOp.mk .VOID .vunit none none),
           NOp.mk .CONST arg src (some (NOp.mk .VOID .vunit none none))) :=
  ⟨rfl, rfl⟩

/-- Claim C10 (confirmed): `NOp.eval` memoizes only a non-`None` result.
First conjunct: a node whose `result` cell is already set returns the
stored result with the state unchanged, WITHOUT running the operation rule
— the equation holds for every tag/payload/src, including ones whose rule
would raise.  Second conjunct: after any `eval` that produced a non-`None`
value, evaluating the updated node returns the same stored result and
leaves the node unchanged.  Third conjunct: on a VOID node the rule
returns `None`, nothing is cached (the node comes back with `result` still
`None`), so every subsequent `eval` re-executes the rule. -/
theorem C10_eval_memoization (op : Ops) (arg : Val) (src : Option NOpList)
    (r : NOp) (n nn v : NOp)
    (h : NOp.eval n = .ok (some v, nn)) :
    NOp.eval (NOp.mk op arg src (some r)) = .ok (some r, NOp.mk op arg src (some r)) ∧
    NOp.eval nn = .ok (some v, nn) ∧
    NOp.eval (NOp.mk .VOID arg src none) = .ok (none, NOp.mk .VOID arg src none) := by
  refine ⟨rfl, ?_, rfl⟩
  cases n with
  | mk op2 arg2 src2 result2 =>
    cases result2 with
    | some r2 =>
      simp [NOp.eval] at h
      obtain ⟨h1, h2⟩ := h
      subst h1
      subst h2
      rfl
    | none =>
      cases hfx : opToFxn op2 arg2 src2 with
      | error e => simp [NOp.eval, hfx] at h
      | ok rr =>
        simp [NOp.eval, hfx] at h
        obtain ⟨h1, h2⟩ := h
        subst h1
        subst h2
        rfl

/-- Witness for C10: evaluating `NOp(Ops.CONST)` computes and stores a
fresh VOID node; the memo-hit conjunct is instantiated at a `CALL` node
with a `None` src — whose rule would raise if it were re-run — showing the
stored result short-circuits the rule. -/
theorem C10_witness :
    NOp.eval (NOp.mk .CONST .vunit none none) =
      .ok (some voidN, NOp.mk .CONST .vunit none (some voidN)) ∧
    (NOp.eval (NOp.mk .CALL .vunit none (some voidN)) =
       .ok (some voidN, NOp.mk .CALL .vunit none (some voidN)) ∧
     NOp.eval (NOp.mk .CONST .vunit none (some voidN)) =
       .ok (some voidN, NOp.mk .CONST .vunit none (some voidN)) ∧
     NOp.eval (NOp.mk .VOID .vunit none none) = .ok (none, NOp.mk .VOID .vunit none none)) :=
  ⟨rfl, C10_eval_memoization .CALL .vunit none voidN
          (NOp.mk .CONST .vunit none none)
          (NOp.mk .CONST .vunit none (some voidN)) voidN rfl⟩

/-- Claim C4 (confirmed): when the body raises, the tracer notifies every
attached callback with `on_begin` and then every attached callback with
`on_failure` carrying the original exception, in attachment order; no
`on_success` is ever emitted; and a new task-level error is raised whose
`cause` chains the original exception, so the original error is never
swallowed. -/
theorem C4_failure_path {V E : Type} (t : Task V E) (args : List V) (e : E)
    (h : t.run args = .error e) :
    make_tracer t args =
      (t.callbacks.map (fun cb => TraceEvent.on_begin cb t.name) ++
       t.callbacks.map (fun cb => TraceEvent.on_failure cb t.name e),
       .error (TaskError.mk ("Task " ++ t.name ++ " failed.") e)) ∧
    ∀ ev ∈ (make_tracer t args).1, ev.isSuccess = false := by
  constructor
  · simp [make_tracer, Task.notify, h]
  · intro ev hev
    simp [make_tracer, Task.notify, h] at hev
    rcases hev with ⟨cb, hcb, hev⟩ | ⟨cb, hcb, hev⟩ <;> subst hev <;> rfl

/-- Witness for C4: a task with two callbacks whose body raises `"boom"`. -/
theorem C4_witness :
    failTask.run [] = .error "boom" ∧
    make_tracer failTask [] =
      ([TraceEvent.on_begin cb0 "t2", TraceEvent.on_begin cb1 "t2",
        TraceEvent.on_failure cb0 "t2" "boom", TraceEvent.on_failure cb1 "t2" "boom"],
       .error (TaskError.mk "Task t2 failed." "boom")) :=
  ⟨rfl, (C4_failure_path failTask [] "boom" rfl).1⟩

/-- Claim C5 (confirmed): when the body returns a value, the traced call
path returns that value and notifies every attached callback with
`on_begin` and then with `on_success`, in attachment order, with no
`on_failure` call. -/
theorem C5_success_path {V E : Type} (t : Task V E) (args : List V) (v : V)
    (h : t.run args = .ok v) :
    make_tracer t args =
      (t.callbacks.map (fun cb => TraceEvent.on_begin cb t.name) ++
       t.callbacks.map (fun cb => TraceEvent.on_success cb t.name v),
       .ok v) ∧
    ∀ ev ∈ (make_tracer t args).1, ev.isFailure = false := by
  constructor
  · simp [make_tracer, Task.notify, h]
  · intro ev hev
    simp [make_tracer, Task.notify, h] at hev
    rcases hev with ⟨cb, hcb, hev⟩ | ⟨cb, hcb, hev⟩ <;> subst hev <;> rfl

/-- Witness for C5: a task with two callbacks whose body returns `7`. -/
theorem C5_witness :
    okTask.run [] = .ok 7 ∧
    make_tracer okTask [] =
      ([TraceEvent.on_begin cb0 "t1", TraceEvent.on_begin cb1 "t1",
        TraceEvent.on_success cb0 "t1" 7, TraceEvent.on_success cb1 "t1" 7],
       .ok 7) :=
  ⟨rfl, (C5_success_path okTask [] 7 rfl).1⟩

/-- Counterexample to C3 as stated: for a task with one attached callback
whose body returns `1`, invoking the Signature produced by `s()` emits NO
callback events at all — the invocation returns the body's value with an
empty notification trace, whereas the traced entry point would have
emitted `on_begin` then `on_success`. -/
theorem C3_counterexample :
    Signature.call (Task.s sigTask []) = ([], .ok 1) ∧
    (make_tracer sigTask []).1 =
      [TraceEvent.on_begin cb0 "t0", TraceEvent.on_success cb0 "t0" 1] :=
  ⟨rfl, rfl⟩

/-- Claim C3 (amended): `t.s(...)` produces a Signature bound to the task
with the given arguments, but invoking the Signature goes through
`Task.__call__`, i.e. `run` directly: it returns the body's result with no
callback notification.  Only `Signature.trace()` routes execution through
the tracer's notification wrapper. -/
theorem C3_signature_binding {V E : Type} (t : Task V E) (args : List V) :
    (t.s args).task = t ∧ (t.s args).args = args ∧
    Signature.call (t.s args) = ([], t.run args) ∧
    Signature.trace (t.s args) = make_tracer t args :=
  ⟨rfl, rfl, rfl, rfl⟩

/-- Claim C8 (confirmed): setting a Task's callbacks validates every
element eagerly and raises a type error when some element does not satisfy
the contract — the error fires at the first non-conforming element,
whatever follows it — and the replacement is atomic: on success the list
is replaced whole, on failure the task keeps its existing callback list
unchanged (no partial update, no task execution involved). -/
theorem C8_set_callbacks_validation {V E : Type} (t : Task V E)
    (value good rest : List PyObj) (bad : PyObj)
    (hv : ∀ o ∈ value, o.is_cb = true)
    (hg : ∀ o ∈ good, o.is_cb = true)
    (hb : bad.is_cb = false) :
    t.set_callbacks value = (Task.mk t.name value t.run, .ok ()) ∧
    t.set_callbacks (good ++ bad :: rest) = (t, .error ()) := by
  constructor
  · simp [Task.set_callbacks, checkAllCallbacks_ok value hv]
  · simp [Task.set_callbacks, checkAllCallbacks_err good bad rest hg hb]

/-- Witness for C8: a valid replacement list `[cb0, cb1]`, and a list with
the non-conforming `nonCb` in the middle that leaves `okTask` unchanged. -/
theorem C8_witness :
    (∀ o ∈ [cb0, cb1], o.is_cb = true) ∧
    nonCb.is_cb = false ∧
    okTask.set_callbacks [cb0, cb1] = (Task.mk "t1" [cb0, cb1] okTask.run, .ok ()) ∧
    okTask.set_callbacks ([cb0] ++ nonCb :: [cb1]) = (okTask, .error ()) :=
  ⟨by decide, rfl,
   (C8_set_callbacks_validation okTask [cb0, cb1] [cb0] [cb1] nonCb
     (by decide) (by decide) rfl).1,
   (C8_set_callbacks_validation okTask [cb0, cb1] [cb0] [cb1] nonCb
     (by decide) (by decide) rfl).2⟩

/-- Claim C9 (confirmed): `substitute` replaces each placeholder whose name
is a key of the parameters mapping with that key's value and leaves
unresolved placeholders verbatim — on strings,
substituting x to a and y to b in the dollar-brace `x`-dollar-brace `y`
string yields `a-b`, and the unresolved dollar-brace `z` placeholder stays
literal under an empty mapping — and it recurses through nested mappings
and sequences preserving their structure (keys kept, every value and entry
substituted in place), returning any other value unchanged. -/
theorem C9_substitute_spec {α : Type} (ps : Params) (m : ValueMap α)
    (l : ValueList α) (a : α) :
    subChars exParams ("$\x7bx\x7d-$\x7by\x7d".toList) = "a-b".toList ∧
    subChars [] ("$\x7bz\x7d".toList) = "$\x7bz\x7d".toList ∧
    (substituteMap ps m).keys = m.keys ∧
    (substituteMap ps m).values = m.values.map (substitute ps) ∧
    (substituteList ps l).toList = l.toList.map (substitute ps) ∧
    substitute ps (Value.vother a) = Value.vother a :=
  ⟨by decide, by decide, substituteMap_keys ps m, substituteMap_values ps m,
   substituteList_toList ps l, rfl⟩

end TinyTask
